import Mathlib

/-!
# clDNN: eltwise primitive marshaling, activation instance accessor, detection output table

A shallow embedding of

* `api/CPP/eltwise.hpp`: the `eltwise` primitive, its two constructors, `get_dependencies`
  and `update_dto`;
* `src/include/activation_inst.h`: `typed_primitive_inst<activation>::input_memory`;
* `api/C/detection_output.h`: the detection output descriptor and its documented table.

Conventions.

* A `std::string` is the list of its `char` values (a `Nat` each); it may hold the value `0`.
* A `const char*` is the list of the bytes found from the pointer on; the C string it
  denotes is what precedes the first `0` byte.
* A `float` is carried by its bit pattern; the code only copies floats.
* `int32_t` is `Int`, `uint32_t` is `Nat`; the code does no arithmetic on them.
* Where a frame condition is at stake, a `const` member function returns the object it was
  called on together with its result, so that "the object is left as it was" is a
  statement about the function.
-/

set_option autoImplicit false

namespace cldnn

/-! ## Strings across the C boundary -/

/-- The type `primitive_id` is `std::string`: a sequence of `char` values. -/
abbrev primitive_id := List Nat

/-- The type `cldnn_primitive_id` is `const char*`: the bytes found from the pointer on. -/
abbrev cldnn_primitive_id := List Nat

/-- The C string a `const char*` denotes: the bytes before the first NUL. -/
def c_string (p : cldnn_primitive_id) : List Nat :=
  p.takeWhile (fun c => c != 0)

/-- The call `std::string::c_str()`: a pointer to the characters of the string followed by a NUL. -/
def c_str (s : primitive_id) : cldnn_primitive_id :=
  s ++ [0]

/-- The constructor `std::string(const char*)`: copies the C string the pointer denotes. -/
def string_of_c_str (p : cldnn_primitive_id) : primitive_id :=
  c_string p

/-- A C `float`, carried by its IEEE-754 binary32 bit pattern. -/
structure float where
  bits : Nat
deriving DecidableEq, Repr

/-- The literal `0.0f`. -/
def float.zero : float := ⟨0⟩

/-! ## Declarations taken from headers that are not among the sources -/

/-- Modelled from the spec: the type tag, an identifier "one per primitive kind",
queried "by stable name"; `cldnn.h` and `primitive.hpp`, which declare it, are missing.
One tag per kind that appears in the sources. -/
inductive primitive_type_id where
  | eltwise
  | activation
  | detection_output
deriving DecidableEq, Repr

/-- Modelled from the spec: the fields every DTO has, "type tag, own identifier, ordered
list of dependency identifiers, an output-padding specification"; the macro
`CLDNN_BEGIN_PRIMITIVE_DESC` that declares them is missing. The type of the padding
specification is a parameter. -/
structure cldnn_primitive_desc (padding : Type) where
  type : primitive_type_id
  id : cldnn_primitive_id
  input : List cldnn_primitive_id
  output_padding : padding
deriving DecidableEq, Repr

/-- Modelled from the spec: the primitive base, which "owns its DTO's payload (copies
dependency identifiers and parameters into owned storage)"; `primitive.hpp`, which
declares `primitive_base`, is missing. -/
structure primitive_base (padding : Type) where
  type : primitive_type_id
  id : primitive_id
  input : List primitive_id
  output_padding : padding
deriving DecidableEq, Repr

/-- Modelled from the spec: the base constructor `primitive_base(id, input, output_padding)`
of `primitive.hpp` (missing), for the primitive kind `type`. -/
def primitive_base.ctor {padding : Type} (type : primitive_type_id)
    (id : primitive_id) (input : List primitive_id) (output_padding : padding) :
    primitive_base padding :=
  { type := type, id := id, input := input, output_padding := output_padding }

/-- Modelled from the spec: the base constructor `primitive_base(dto)` of `primitive.hpp`
(missing): "construction from a DTO copies every field into owned storage". -/
def primitive_base.from_dto {padding : Type} (dto : cldnn_primitive_desc padding) :
    primitive_base padding :=
  { type := dto.type
    id := string_of_c_str dto.id
    input := dto.input.map string_of_c_str
    output_padding := dto.output_padding }

/-! ## `api/CPP/eltwise.hpp` -/

/-- The enumerators of the C enumeration `cldnn_eltwise_mode`. The header `../C/eltwise.h`
that declares them is missing, so their values are a parameter. -/
structure cldnn_eltwise_mode where
  cldnn_eltwise_sum : Int
  cldnn_eltwise_sub : Int
  cldnn_eltwise_max : Int
  cldnn_eltwise_prod : Int
deriving DecidableEq, Repr

/-- The type `enum class eltwise_mode : int32_t`: a value of the underlying type. -/
structure eltwise_mode where
  val : Int
deriving DecidableEq, Repr

/-- Eltwise sum. -/
def eltwise_mode.sum (c : cldnn_eltwise_mode) : eltwise_mode := ⟨c.cldnn_eltwise_sum⟩

/-- Eltwise subtract. -/
def eltwise_mode.sub (c : cldnn_eltwise_mode) : eltwise_mode := ⟨c.cldnn_eltwise_sub⟩

/-- Eltwise max. -/
def eltwise_mode.max (c : cldnn_eltwise_mode) : eltwise_mode := ⟨c.cldnn_eltwise_max⟩

/-- Eltwise product. -/
def eltwise_mode.prod (c : cldnn_eltwise_mode) : eltwise_mode := ⟨c.cldnn_eltwise_prod⟩

/-- The DTO `CLDNN_PRIMITIVE_DESC(eltwise)`: the common fields and the four fields
`eltwise.hpp` reads and writes. `../C/eltwise.h`, which declares it, is missing; the field
types are those the conversions in `eltwise.hpp` require. -/
structure cldnn_eltwise_desc (padding : Type) extends cldnn_primitive_desc padding where
  input2 : cldnn_primitive_id
  mode : Int
  with_activation : Nat
  activation_negative_slope : float
deriving DecidableEq, Repr

/-- The type `struct eltwise : public primitive_base<eltwise, CLDNN_PRIMITIVE_DESC(eltwise)>`. -/
structure eltwise (padding : Type) where
  base : primitive_base padding
  input2 : primitive_id
  mode : eltwise_mode
  with_activation : Bool
  activation_negative_slope : float
deriving DecidableEq, Repr

/-- The constructor `eltwise(id, input, input2, mode, with_activation, activation_slp,
output_padding)`. -/
def eltwise.ctor {padding : Type} (id : primitive_id) (input : primitive_id)
    (input2 : primitive_id) (mode : eltwise_mode) (with_activation : Bool)
    (activation_slp : float) (output_padding : padding) : eltwise padding :=
  { base := primitive_base.ctor primitive_type_id.eltwise id [input] output_padding
    input2 := input2
    mode := mode
    with_activation := with_activation
    activation_negative_slope := activation_slp }

/-- The same constructor called with its last three arguments omitted:
`with_activation = false`, `activation_slp = 0.0f`, `output_padding = padding()`.
The value `padding()` is the default element of the parameter type. -/
def eltwise.ctor_defaults {padding : Type} [Inhabited padding] (id : primitive_id)
    (input : primitive_id) (input2 : primitive_id) (mode : eltwise_mode) : eltwise padding :=
  eltwise.ctor id input input2 mode false float.zero default

/-- The constructor `eltwise(const dto* dto)`. -/
def eltwise.from_dto {padding : Type} (dto : cldnn_eltwise_desc padding) : eltwise padding :=
  { base := primitive_base.from_dto dto.tocldnn_primitive_desc
    input2 := string_of_c_str dto.input2
    mode := ⟨dto.mode⟩
    with_activation := dto.with_activation != 0
    activation_negative_slope := dto.activation_negative_slope }

/-- The member `get_dependencies() const`: `return { input2 }`. -/
def eltwise.get_dependencies {padding : Type} (self : eltwise padding) : List primitive_id :=
  [self.input2]

/-- Modelled from the spec: the "declared dependency list" of a primitive, which a node's
dependency count matches; the member of `primitive.hpp` that assembles it is missing. It is
the primary inputs held by the base followed by what `get_dependencies` returns. -/
def eltwise.declared_dependencies {padding : Type} (self : eltwise padding) :
    List primitive_id :=
  self.base.input ++ self.get_dependencies

/-- The member `update_dto(dto& dto) const`: the object it is called on and the DTO it leaves. -/
def eltwise.update_dto {padding : Type} (self : eltwise padding)
    (dto : cldnn_eltwise_desc padding) : eltwise padding × cldnn_eltwise_desc padding :=
  (self,
   { dto with
     input2 := c_str self.input2
     mode := self.mode.val
     with_activation := self.with_activation.toNat
     activation_negative_slope := self.activation_negative_slope })

/-- Export after import: the DTO `update_dto` leaves in `target` when called on the
primitive imported from `dto`. -/
def eltwise.export_import {padding : Type} (target dto : cldnn_eltwise_desc padding) :
    cldnn_eltwise_desc padding :=
  (eltwise.update_dto (eltwise.from_dto dto) target).2

/-- Import after export: the primitive imported from the DTO `update_dto` leaves in
`target` when called on `self`. -/
def eltwise.import_export {padding : Type} (self : eltwise padding)
    (target : cldnn_eltwise_desc padding) : eltwise padding :=
  eltwise.from_dto (eltwise.update_dto self target).2

/-! ## `src/include/activation_inst.h` -/

/-- Modelled from the spec: the instance base, which "owns/shares input and output
buffers"; `primitive_inst.h`, which declares it, is missing. It holds the buffers bound to
its dependencies, in dependency order, and its own output buffer. The type `memory` of a
buffer is a parameter. -/
structure primitive_inst (memory : Type) where
  id : primitive_id
  deps_memory : List memory
  output_memory : memory
deriving DecidableEq, Repr

/-- Modelled from the spec: `dep_memory(index)` of `primitive_inst.h` (missing), the
accessor "to fetch a given input's bound Instance and buffer"; there is no result when
the instance has no dependency at `index`. -/
def primitive_inst.dep_memory {memory : Type} (self : primitive_inst memory) (index : Nat) :
    Option memory :=
  self.deps_memory[index]?

/-- The class `typed_primitive_inst<activation>`, with
`parent = typed_primitive_inst_base<activation>`; the class adds no data member. -/
structure activation_inst (memory : Type) where
  parent : primitive_inst memory
deriving DecidableEq, Repr

/-- The member `const memory& input_memory() const { return dep_memory(0); }`: the instance it is
called on and the buffer returned. -/
def activation_inst.input_memory {memory : Type} (self : activation_inst memory) :
    activation_inst memory × Option memory :=
  (self, self.parent.dep_memory 0)

/-! ## Layout rule of the eltwise kind -/

/-- Modelled from the spec: Layout, the "value type describing a tensor's shape, memory
format, and element type"; `layout.hpp`, which declares it, is missing. -/
structure layout where
  data_type : Nat
  format : Nat
  size : List Nat
deriving DecidableEq, Repr

/-- Modelled from the spec: the error taxonomy of its section 7. -/
inductive error where
  | DuplicateTypeError
  | UnknownTypeError
  | UnresolvedDependencyError
  | GraphCycleError
  | LayoutIncompatibleError
  | UnboundDependencyError
deriving DecidableEq, Repr

/-- Modelled from the spec: the layout rule of the eltwise kind; the function
`eltwise_inst::calc_output_layout` is missing (`eltwise.hpp` only documents that both
inputs have equal sizes in all dimensions and the same format). The rule "requires all
inputs to share identical size and memory format; output Layout equals the common input
Layout", a mismatch fails with `LayoutIncompatibleError`, and the output is "the first
input's Layout". -/
def eltwise_calc_output_layout (input input2 : layout) : Except error layout :=
  if input.size = input2.size ∧ input.format = input2.format then
    Except.ok input
  else
    Except.error error.LayoutIncompatibleError

/-! ## `api/C/detection_output.h` -/

/-- The type `cldnn_prior_box_code_type`: a C enumeration, so the enumerators are 0, 1 and 2. -/
inductive cldnn_prior_box_code_type where
  | cldnn_code_type_corner
  | cldnn_code_type_center_size
  | cldnn_code_type_corner_size
deriving DecidableEq, Repr

/-- The value of an enumerator of `cldnn_prior_box_code_type`. -/
def cldnn_prior_box_code_type.toInt : cldnn_prior_box_code_type → Int
  | cldnn_code_type_corner => 0
  | cldnn_code_type_center_size => 1
  | cldnn_code_type_corner_size => 2

/-- The fields `CLDNN_BEGIN_PRIMITIVE_DESC(detection_output)` declares, in their order. -/
structure cldnn_detection_output_desc where
  num_classes : Nat
  keep_top_k : Nat
  share_location : Nat
  background_label_id : Int
  nms_threshold : float
  top_k : Int
  eta : float
  code_type : Int
  variance_encoded_in_target : Nat
  confidence_threshold : float
deriving DecidableEq, Repr

/-- A true detection of one image: the six values that follow `image_id` in a row. The
values of a row are numbers; a rational stands for each. -/
structure detection where
  label : ℚ
  confidence : ℚ
  xmin : ℚ
  ymin : ℚ
  xmax : ℚ
  ymax : ℚ
deriving DecidableEq

/-- The row of a true detection of the image with 0-based index `image_id`:
`[image_id, label, confidence, xmin, ymin, xmax, ymax]`. -/
def detection.row (image_id : Nat) (d : detection) : List ℚ :=
  [(image_id : ℚ), d.label, d.confidence, d.xmin, d.ymin, d.xmax, d.ymax]

/-- The dummy row, with `image_id = -1`. The six other columns are zero, which the spec
gives as the default to assume. -/
def dummy_row : List ℚ :=
  [-1, 0, 0, 0, 0, 0, 0]

/-- Modelled from the spec: the rows of the detection output table for one image; the
kernel that fills the table is missing. The table has `keep_top_k` rows per image; it
keeps at most `keep_top_k` detections and, "if number of detections per image is lower
than keep_top_k, will write dummy results at the end with image_id=-1". -/
def detection_output_rows (desc : cldnn_detection_output_desc) (image_id : Nat)
    (detections : List detection) : List (List ℚ) :=
  (detections.take desc.keep_top_k).map (detection.row image_id)
    ++ List.replicate (desc.keep_top_k - detections.length) dummy_row

/-! ## Concrete values -/

/-- A DTO to export into: type tag `eltwise`, identifier "e", one primary input "a". -/
def sample_target : cldnn_eltwise_desc Nat :=
  { type := primitive_type_id.eltwise, id := [101, 0], input := [[97, 0]], output_padding := 4
    input2 := [], mode := 0, with_activation := 0, activation_negative_slope := ⟨0⟩ }

/-- A DTO whose `with_activation` is 2: input2 "b", mode 1, slope bits of `0.5f`. -/
def dto_flag_two : cldnn_eltwise_desc Nat :=
  { type := primitive_type_id.eltwise, id := [101, 0], input := [[97, 0]], output_padding := 0
    input2 := [98, 0], mode := 1, with_activation := 2,
    activation_negative_slope := ⟨1056964608⟩ }

/-- The same DTO with `with_activation` 1. -/
def dto_flag_one : cldnn_eltwise_desc Nat :=
  { dto_flag_two with with_activation := 1 }

/-- A DTO with no primary input: identifier "e", input2 "b". -/
def dto_no_input : cldnn_eltwise_desc Nat :=
  { type := primitive_type_id.eltwise, id := [101, 0], input := [], output_padding := 0
    input2 := [98, 0], mode := 0, with_activation := 0, activation_negative_slope := ⟨0⟩ }

/-- A DTO with one primary input "a": identifier "e", input2 "b". -/
def dto_one_input : cldnn_eltwise_desc Nat :=
  { dto_no_input with input := [[97, 0]] }

/-- A primitive whose `input2` is the three characters 'a', NUL, 'b'. -/
def eltwise_nul_id : eltwise Nat :=
  eltwise.ctor [101] [97] [97, 0, 98] ⟨0⟩ true ⟨0⟩ 0

/-- A primitive whose `input2` is "ab". -/
def eltwise_plain_id : eltwise Nat :=
  eltwise.ctor [101] [97] [97, 98] ⟨3⟩ true ⟨1056964608⟩ 0

/-- Two layouts of equal size and format (they differ in element type). -/
def layout_a : layout := { data_type := 0, format := 1, size := [1, 3, 224, 224] }

/-- A layout with the size and format of `layout_a` and another element type. -/
def layout_b : layout := { data_type := 1, format := 1, size := [1, 3, 224, 224] }

/-- A layout whose size differs from that of `layout_a` in the last dimension. -/
def layout_c : layout := { data_type := 0, format := 1, size := [1, 3, 224, 112] }

/-- A detection output descriptor with `keep_top_k = 5`. -/
def sample_desc : cldnn_detection_output_desc :=
  { num_classes := 21, keep_top_k := 5, share_location := 1, background_label_id := 0
    nms_threshold := ⟨0⟩, top_k := 400, eta := ⟨0⟩, code_type := 1
    variance_encoded_in_target := 0, confidence_threshold := ⟨0⟩ }

/-- Two true detections of one image. -/
def sample_detections : List detection :=
  [ { label := 3, confidence := 9 / 10, xmin := 0, ymin := 0, xmax := 1 / 2, ymax := 1 / 2 },
    { label := 7, confidence := 3 / 4, xmin := 1 / 4, ymin := 1 / 4, xmax := 1, ymax := 1 } ]

/-! ## Lemmas on C strings -/

/-- A NUL-free sequence followed by a NUL denotes that sequence as a C string. -/
theorem c_string_append_nul (s : List Nat) (h : 0 ∉ s) : c_string (s ++ [0]) = s := by
  induction s with
  | nil => simp [c_string]
  | cons a s ih =>
    have ha : a ≠ 0 := fun e => h (by simp [e])
    have hs : 0 ∉ s := fun m => h (List.mem_cons_of_mem a m)
    have ih2 := ih hs
    simp only [c_string] at ih2 ⊢
    simp [List.takeWhile_cons, ha, ih2]

/-- No C string holds a NUL. -/
theorem nul_not_mem_c_string (p : List Nat) : 0 ∉ c_string p := by
  intro h
  have := List.mem_takeWhile_imp h
  simp at this

/-- Reading the `c_str()` of a NUL-free string as a C string gives the string back. -/
theorem c_string_c_str (s : primitive_id) (h : 0 ∉ s) : c_string (c_str s) = s :=
  c_string_append_nul s h

/-- A C string copied into a `std::string` and taken back by `c_str()` is the same C
string. -/
theorem c_string_c_str_c_string (p : cldnn_primitive_id) :
    c_string (c_str (c_string p)) = c_string p :=
  c_string_append_nul _ (nul_not_mem_c_string p)

/-- A `bool` converted to an integer and tested against 0 is the same `bool`. -/
theorem toNat_bne_zero (b : Bool) : (b.toNat != 0) = b := by
  cases b <;> rfl

/-! ## Round trips of the eltwise marshaling -/

/-- C1, as stated, fails: the DTO `dto_flag_two` has `with_activation = 2`, and importing
it and exporting the primitive leaves `with_activation = 1`, so the four fields are not
all equal to those of the DTO. -/
theorem eltwise_export_import_not_field_for_field :
    ¬ (c_string (eltwise.export_import sample_target dto_flag_two).input2
          = c_string dto_flag_two.input2
        ∧ (eltwise.export_import sample_target dto_flag_two).mode = dto_flag_two.mode
        ∧ (eltwise.export_import sample_target dto_flag_two).with_activation
          = dto_flag_two.with_activation
        ∧ (eltwise.export_import sample_target dto_flag_two).activation_negative_slope
          = dto_flag_two.activation_negative_slope) := by
  decide

/-- C1, amended: for every eltwise DTO `dto` whose `with_activation` is 0 or 1, importing
`dto` and exporting the primitive (into any DTO `target`) yields a DTO whose `input2`
(compared as a C string), `mode`, `with_activation` and `activation_negative_slope` equal
those of `dto`. -/
theorem eltwise_export_import_fields {padding : Type} (target dto : cldnn_eltwise_desc padding)
    (h : dto.with_activation = 0 ∨ dto.with_activation = 1) :
    c_string (eltwise.export_import target dto).input2 = c_string dto.input2
      ∧ (eltwise.export_import target dto).mode = dto.mode
      ∧ (eltwise.export_import target dto).with_activation = dto.with_activation
      ∧ (eltwise.export_import target dto).activation_negative_slope
        = dto.activation_negative_slope := by
  refine ⟨?_, rfl, ?_, rfl⟩
  · exact c_string_c_str_c_string dto.input2
  · rcases h with h | h <;>
      simp [eltwise.export_import, eltwise.update_dto, eltwise.from_dto, h]

/-- The amended C1 at `dto_flag_one`, whose `with_activation` is 1. -/
theorem eltwise_export_import_fields_witness :
    (dto_flag_one.with_activation = 0 ∨ dto_flag_one.with_activation = 1)
      ∧ c_string (eltwise.export_import sample_target dto_flag_one).input2
          = c_string dto_flag_one.input2
      ∧ (eltwise.export_import sample_target dto_flag_one).mode = dto_flag_one.mode
      ∧ (eltwise.export_import sample_target dto_flag_one).with_activation
          = dto_flag_one.with_activation
      ∧ (eltwise.export_import sample_target dto_flag_one).activation_negative_slope
          = dto_flag_one.activation_negative_slope :=
  ⟨Or.inr rfl, eltwise_export_import_fields sample_target dto_flag_one (Or.inr rfl)⟩

/-- C2, as stated, fails: the primitive `eltwise_nul_id` has the `input2` 'a', NUL, 'b';
exporting it and importing the DTO yields the `input2` "a", so the four fields are not
all equal to those of the primitive. -/
theorem eltwise_import_export_not_lossless :
    ¬ ((eltwise.import_export eltwise_nul_id sample_target).input2 = eltwise_nul_id.input2
        ∧ (eltwise.import_export eltwise_nul_id sample_target).mode = eltwise_nul_id.mode
        ∧ (eltwise.import_export eltwise_nul_id sample_target).with_activation
          = eltwise_nul_id.with_activation
        ∧ (eltwise.import_export eltwise_nul_id sample_target).activation_negative_slope
          = eltwise_nul_id.activation_negative_slope) := by
  decide

/-- C2, amended: for every eltwise primitive `self` whose `input2` holds no NUL character,
exporting `self` (into any DTO `target`) and importing the resulting DTO yields a
primitive whose `input2`, `mode`, `with_activation` and `activation_negative_slope` equal
those of `self`. -/
theorem eltwise_import_export_fields {padding : Type} (self : eltwise padding)
    (target : cldnn_eltwise_desc padding) (h : 0 ∉ self.input2) :
    (eltwise.import_export self target).input2 = self.input2
      ∧ (eltwise.import_export self target).mode = self.mode
      ∧ (eltwise.import_export self target).with_activation = self.with_activation
      ∧ (eltwise.import_export self target).activation_negative_slope
        = self.activation_negative_slope := by
  refine ⟨?_, rfl, ?_, rfl⟩
  · exact c_string_c_str self.input2 h
  · exact toNat_bne_zero self.with_activation

/-- The amended C2 at `eltwise_plain_id`, whose `input2` is "ab". -/
theorem eltwise_import_export_fields_witness :
    0 ∉ eltwise_plain_id.input2
      ∧ (eltwise.import_export eltwise_plain_id sample_target).input2 = eltwise_plain_id.input2
      ∧ (eltwise.import_export eltwise_plain_id sample_target).mode = eltwise_plain_id.mode
      ∧ (eltwise.import_export eltwise_plain_id sample_target).with_activation
          = eltwise_plain_id.with_activation
      ∧ (eltwise.import_export eltwise_plain_id sample_target).activation_negative_slope
          = eltwise_plain_id.activation_negative_slope :=
  ⟨by decide, eltwise_import_export_fields eltwise_plain_id sample_target (by decide)⟩

/-! ## The constructor and the dependencies -/

/-- C3: the constructor `eltwise(id, input, input2, mode, with_activation, activation_slp,
output_padding)` yields a primitive whose `input2`, `mode`, `with_activation` and
`activation_negative_slope` are the corresponding arguments and whose base is built from
`id`, the one-element list `[input]` and `output_padding`; with the last three arguments
omitted, `with_activation` is false, `activation_negative_slope` is `0.0f`, the output
padding is the default `padding()`, and the other fields are as before. -/
theorem eltwise_ctor_fields {padding : Type} [Inhabited padding] (id input input2 : primitive_id)
    (mode : eltwise_mode) (with_activation : Bool) (activation_slp : float)
    (output_padding : padding) :
    (eltwise.ctor id input input2 mode with_activation activation_slp output_padding).input2
        = input2
      ∧ (eltwise.ctor id input input2 mode with_activation activation_slp output_padding).mode
        = mode
      ∧ (eltwise.ctor id input input2 mode with_activation activation_slp
          output_padding).with_activation = with_activation
      ∧ (eltwise.ctor id input input2 mode with_activation activation_slp
          output_padding).activation_negative_slope = activation_slp
      ∧ (eltwise.ctor id input input2 mode with_activation activation_slp output_padding).base
        = primitive_base.ctor primitive_type_id.eltwise id [input] output_padding
      ∧ (eltwise.ctor id input input2 mode with_activation activation_slp
          output_padding).base.id = id
      ∧ (eltwise.ctor id input input2 mode with_activation activation_slp
          output_padding).base.input = [input]
      ∧ (eltwise.ctor id input input2 mode with_activation activation_slp
          output_padding).base.output_padding = output_padding
      ∧ (eltwise.ctor_defaults id input input2 mode : eltwise padding).with_activation = false
      ∧ (eltwise.ctor_defaults id input input2 mode : eltwise padding).activation_negative_slope
        = float.zero
      ∧ (eltwise.ctor_defaults id input input2 mode : eltwise padding).base.output_padding
        = default
      ∧ (eltwise.ctor_defaults id input input2 mode : eltwise padding).input2 = input2
      ∧ (eltwise.ctor_defaults id input input2 mode : eltwise padding).mode = mode
      ∧ (eltwise.ctor_defaults id input input2 mode : eltwise padding).base.id = id
      ∧ (eltwise.ctor_defaults id input input2 mode : eltwise padding).base.input = [input] :=
  ⟨rfl, rfl, rfl, rfl, rfl, rfl, rfl, rfl, rfl, rfl, rfl, rfl, rfl, rfl, rfl⟩

/-- C4, as stated, fails for a primitive imported from a DTO: the DTO `dto_no_input` has
no primary input, and the primitive imported from it declares one dependency, its
`input2`, not two. -/
theorem eltwise_imported_dependencies_not_two :
    ¬ ((eltwise.from_dto dto_no_input).get_dependencies.length = 1
        ∧ (eltwise.from_dto dto_no_input).declared_dependencies.length = 2) := by
  decide

/-- C4, amended: the constructor passes exactly one primary input, `[input]`, to the
primitive base; `get_dependencies` returns the one-element list holding the `input2` field
of the primitive, for every primitive, so for one built by the constructor (where it is
the argument `input2`) and for one imported from a DTO (where it is the C string of the
DTO's `input2`); the declared dependencies of a primitive built by the constructor are
`input` and `input2`, two in number; those of a primitive imported from a DTO are the
primary inputs of the DTO followed by `input2`, one more than the DTO has primary inputs,
so two exactly when the DTO has one primary input. -/
theorem eltwise_dependencies {padding : Type} (id input input2 : primitive_id)
    (mode : eltwise_mode) (with_activation : Bool) (activation_slp : float)
    (output_padding : padding) (self : eltwise padding) (dto : cldnn_eltwise_desc padding) :
    (eltwise.ctor id input input2 mode with_activation activation_slp
          output_padding).base.input = [input]
      ∧ self.get_dependencies = [self.input2]
      ∧ self.get_dependencies.length = 1
      ∧ (eltwise.ctor id input input2 mode with_activation activation_slp
          output_padding).get_dependencies = [input2]
      ∧ (eltwise.from_dto dto).get_dependencies = [(eltwise.from_dto dto).input2]
      ∧ (eltwise.from_dto dto).get_dependencies = [c_string dto.input2]
      ∧ (eltwise.ctor id input input2 mode with_activation activation_slp
            output_padding).base.input
          ++ (eltwise.ctor id input input2 mode with_activation activation_slp
            output_padding).get_dependencies = [input, input2]
      ∧ ((eltwise.ctor id input input2 mode with_activation activation_slp
            output_padding).base.input
          ++ (eltwise.ctor id input input2 mode with_activation activation_slp
            output_padding).get_dependencies).length = 2
      ∧ (eltwise.ctor id input input2 mode with_activation activation_slp
          output_padding).declared_dependencies = [input, input2]
      ∧ (eltwise.ctor id input input2 mode with_activation activation_slp
          output_padding).declared_dependencies.length = 2
      ∧ (eltwise.from_dto dto).declared_dependencies
          = dto.input.map c_string ++ [c_string dto.input2]
      ∧ (eltwise.from_dto dto).declared_dependencies.length = dto.input.length + 1
      ∧ ((eltwise.from_dto dto).declared_dependencies.length = 2 ↔ dto.input.length = 1) := by
  have hlen : (eltwise.from_dto dto).declared_dependencies.length = dto.input.length + 1 := by
    simp [eltwise.declared_dependencies, eltwise.from_dto, primitive_base.from_dto,
      eltwise.get_dependencies]
  refine ⟨rfl, rfl, rfl, rfl, rfl, rfl, rfl, rfl, rfl, rfl, rfl, hlen, ?_⟩
  rw [hlen]
  omega

/-- The amended C4 at the DTO `dto_one_input`, which has one primary input "a": the
primitive imported from it declares the two dependencies "a" and "b". -/
theorem eltwise_dependencies_witness :
    dto_one_input.input.length = 1
      ∧ (eltwise.from_dto dto_one_input).declared_dependencies = [[97], [98]]
      ∧ (eltwise.from_dto dto_one_input).declared_dependencies.length = 2 :=
  have hw := eltwise_dependencies [101] [97] [98] ⟨0⟩ false float.zero (0 : Nat)
    eltwise_plain_id dto_one_input
  ⟨rfl, by decide, hw.2.2.2.2.2.2.2.2.2.2.2.2.mpr rfl⟩

/-! ## Frame of `update_dto` and normalisation of `with_activation` -/

/-- C8: `update_dto` leaves the type tag, the own identifier, the primary input list and
the output padding of the DTO as they were, so that the DTO it leaves is the given one
with the four fields `input2`, `mode`, `with_activation` and `activation_negative_slope`
replaced, and it leaves the primitive as it was. -/
theorem eltwise_update_dto_frame {padding : Type} (self : eltwise padding)
    (dto : cldnn_eltwise_desc padding) :
    (self.update_dto dto).1 = self
      ∧ (self.update_dto dto).2.type = dto.type
      ∧ (self.update_dto dto).2.id = dto.id
      ∧ (self.update_dto dto).2.input = dto.input
      ∧ (self.update_dto dto).2.output_padding = dto.output_padding
      ∧ (self.update_dto dto).2.tocldnn_primitive_desc = dto.tocldnn_primitive_desc
      ∧ (self.update_dto dto).2 =
          { tocldnn_primitive_desc := dto.tocldnn_primitive_desc
            input2 := (self.update_dto dto).2.input2
            mode := (self.update_dto dto).2.mode
            with_activation := (self.update_dto dto).2.with_activation
            activation_negative_slope := (self.update_dto dto).2.activation_negative_slope } :=
  ⟨rfl, rfl, rfl, rfl, rfl, rfl, rfl⟩

/-- C9: import maps the DTO value 0 of `with_activation` to false and every non-zero value
`n + 1` to true; export writes 0 for false and 1 for true; so the `with_activation`
exported after an import is 0 or 1, and export after import is idempotent: done on the
result of a first export after import it gives that result again, whether the export
goes into a separate DTO `target` or back into the DTO that was imported. -/
theorem eltwise_with_activation_normalised {padding : Type} (self : eltwise padding)
    (target dto : cldnn_eltwise_desc padding) (n : Nat) :
    (eltwise.from_dto { dto with with_activation := 0 }).with_activation = false
      ∧ (eltwise.from_dto { dto with with_activation := n + 1 }).with_activation = true
      ∧ (eltwise.update_dto { self with with_activation := false } target).2.with_activation = 0
      ∧ (eltwise.update_dto { self with with_activation := true } target).2.with_activation = 1
      ∧ ((eltwise.export_import target dto).with_activation = 0
          ∨ (eltwise.export_import target dto).with_activation = 1)
      ∧ eltwise.export_import target (eltwise.export_import target dto)
          = eltwise.export_import target dto
      ∧ eltwise.export_import (eltwise.export_import dto dto) (eltwise.export_import dto dto)
          = eltwise.export_import dto dto := by
  have hflag : ∀ t d : cldnn_eltwise_desc padding,
      ((eltwise.export_import t d).with_activation != 0) = (d.with_activation != 0) := by
    intro t d
    exact toNat_bne_zero (d.with_activation != 0)
  have hidem : ∀ t u d : cldnn_eltwise_desc padding,
      u.tocldnn_primitive_desc = t.tocldnn_primitive_desc →
      eltwise.export_import u (eltwise.export_import t d) = eltwise.export_import t d := by
    intro t u d hu
    have h1 := hflag t d
    have h2 := c_string_c_str_c_string d.input2
    simp only [eltwise.export_import, eltwise.update_dto, eltwise.from_dto,
      string_of_c_str] at h1 h2 ⊢
    simp only [h1, h2, hu]
  refine ⟨rfl, rfl, rfl, rfl, ?_, hidem target target dto rfl, hidem dto _ dto rfl⟩
  show (dto.with_activation != 0).toNat = 0 ∨ (dto.with_activation != 0).toNat = 1
  cases (dto.with_activation != 0) <;> simp

/-! ## The activation instance -/

/-- C7: `input_memory()` returns what `dep_memory(0)` returns, the buffer bound to the
dependency at index 0: for an instance whose dependencies are bound to the buffers
`m :: rest` it returns `m`, whatever the buffers `rest` of the other dependencies are;
and it leaves the instance as it was. -/
theorem activation_input_memory {memory : Type} (self : activation_inst memory)
    (id : primitive_id) (m out : memory) (rest : List memory) :
    self.input_memory.2 = self.parent.dep_memory 0
      ∧ self.input_memory.2 = self.parent.deps_memory[0]?
      ∧ self.input_memory.1 = self
      ∧ (activation_inst.input_memory
          { parent := { id := id, deps_memory := m :: rest, output_memory := out } }).2 = some m :=
  ⟨rfl, rfl, rfl, by simp [activation_inst.input_memory, primitive_inst.dep_memory]⟩

/-! ## The layout rule of the eltwise kind -/

/-- C5: when the two inputs of an eltwise node have equal sizes in all dimensions and the
same format, layout inference succeeds and the output layout is the input layout, with
the size and the format the two inputs share (for two equal input layouts, that layout);
when the two inputs differ in size, layout inference fails with
`LayoutIncompatibleError`. -/
theorem eltwise_layout_rule (input input2 : layout) :
    (input.size = input2.size → input.format = input2.format →
        ∃ out, eltwise_calc_output_layout input input2 = Except.ok out
          ∧ out = input ∧ out.size = input2.size ∧ out.format = input2.format)
      ∧ eltwise_calc_output_layout input input = Except.ok input
      ∧ (input.size ≠ input2.size →
        eltwise_calc_output_layout input input2
          = Except.error error.LayoutIncompatibleError) := by
  refine ⟨?_, ?_, ?_⟩
  · intro hs hf
    exact ⟨input, by simp [eltwise_calc_output_layout, hs, hf], rfl, hs, hf⟩
  · simp [eltwise_calc_output_layout]
  · intro hs
    simp [eltwise_calc_output_layout, hs]

/-- C5 at `layout_a` and `layout_b`, which agree in size and format, and at `layout_a` and
`layout_c`, which differ in size. -/
theorem eltwise_layout_rule_witness :
    (layout_a.size = layout_b.size ∧ layout_a.format = layout_b.format
        ∧ ∃ out, eltwise_calc_output_layout layout_a layout_b = Except.ok out
          ∧ out = layout_a ∧ out.size = layout_b.size ∧ out.format = layout_b.format)
      ∧ (layout_a.size ≠ layout_c.size
        ∧ eltwise_calc_output_layout layout_a layout_c
          = Except.error error.LayoutIncompatibleError) :=
  ⟨⟨rfl, rfl, (eltwise_layout_rule layout_a layout_b).1 rfl rfl⟩,
   ⟨by decide, (eltwise_layout_rule layout_a layout_c).2.2 (by decide)⟩⟩

/-! ## The detection output table -/

/-- C6: for an image with fewer true detections than `keep_top_k`, the table has exactly
`keep_top_k` rows for that image, each of 7 values; row `i` for `i` below the number `n`
of detections is the row `[image_id, label, confidence, xmin, ymin, xmax, ymax]` of
detection `i`; the rows from `n` to `keep_top_k - 1` are the dummy row, whose `image_id`
is -1, a value that is no 0-based image index. -/
theorem detection_output_padding (desc : cldnn_detection_output_desc) (image_id : Nat)
    (detections : List detection) (h : detections.length < desc.keep_top_k) :
    (detection_output_rows desc image_id detections).length = desc.keep_top_k
      ∧ (∀ r ∈ detection_output_rows desc image_id detections, r.length = 7)
      ∧ (∀ (i : Nat) (hi : i < detections.length),
          (detection_output_rows desc image_id detections)[i]?
            = some (detection.row image_id (detections.get ⟨i, hi⟩)))
      ∧ (∀ i : Nat, detections.length ≤ i → i < desc.keep_top_k →
          (detection_output_rows desc image_id detections)[i]? = some dummy_row)
      ∧ dummy_row.head? = some (-1)
      ∧ (∀ j : Nat, dummy_row.head? ≠ some (j : ℚ)) := by
  have htake : detections.take desc.keep_top_k = detections :=
    List.take_of_length_le (Nat.le_of_lt h)
  refine ⟨?_, ?_, ?_, ?_, rfl, ?_⟩
  · simp only [detection_output_rows, htake, List.length_append, List.length_map,
      List.length_replicate]
    omega
  · intro r hr
    simp only [detection_output_rows, htake, List.mem_append, List.mem_map,
      List.mem_replicate] at hr
    rcases hr with ⟨d, _, rfl⟩ | ⟨_, rfl⟩
    · rfl
    · rfl
  · intro i hi
    simp only [detection_output_rows, htake]
    rw [List.getElem?_append_left (by simpa using hi)]
    simp [List.getElem?_map, List.getElem?_eq_getElem hi]
  · intro i hlo hhi
    simp only [detection_output_rows, htake]
    rw [List.getElem?_append_right (by simpa using hlo)]
    simp only [List.length_map]
    rw [List.getElem?_replicate]
    have : i - detections.length < desc.keep_top_k - detections.length := by omega
    simp [this]
  · intro j hj
    simp only [dummy_row, List.head?_cons, Option.some.injEq] at hj
    have h0 : (0 : ℚ) ≤ (j : ℚ) := Nat.cast_nonneg j
    rw [← hj] at h0
    norm_num at h0

/-- C6 at `keep_top_k = 5` and 2 true detections: the table of the image has 5 rows, rows
0 and 1 the real ones and rows 2 to 4 the dummy row. -/
theorem detection_output_padding_witness :
    sample_detections.length < sample_desc.keep_top_k
      ∧ detection_output_rows sample_desc 0 sample_detections
        = [[0, 3, 9 / 10, 0, 0, 1 / 2, 1 / 2], [0, 7, 3 / 4, 1 / 4, 1 / 4, 1, 1],
           [-1, 0, 0, 0, 0, 0, 0], [-1, 0, 0, 0, 0, 0, 0], [-1, 0, 0, 0, 0, 0, 0]]
      ∧ (detection_output_rows sample_desc 0 sample_detections).length = 5
      ∧ (detection_output_rows sample_desc 0 sample_detections)[2]? = some dummy_row
      ∧ (detection_output_rows sample_desc 0 sample_detections)[3]? = some dummy_row
      ∧ (detection_output_rows sample_desc 0 sample_detections)[4]? = some dummy_row :=
  have hw := detection_output_padding sample_desc 0 sample_detections (by decide)
  ⟨by decide, rfl, hw.1, hw.2.2.2.1 2 (by decide) (by decide),
    hw.2.2.2.1 3 (by decide) (by decide), hw.2.2.2.1 4 (by decide) (by decide)⟩

end cldnn
